import Mathlib

/-!
Verification of `telegram_document_bot.py` (Caixa-Cubic-Finance).

Shallow embedding: Python floats are modelled as exact rationals (ℚ);
fallible Python code (exceptions such as `ValueError`, `KeyError` and
`ZeroDivisionError`) is modelled with `Option`.  The conversation handler
is modelled as a step function on an explicit state/session pair.
-/

namespace CaixaBot

/-! ## Module-level constants (lines 30-36 of the source) -/

def DEFAULT_TAN : ℚ := 786 / 100

def DEFAULT_TAEG : ℚ := 830 / 100

/-- `reportlab.lib.units.cm` = 72 / 2.54 points. -/
def cmUnit : ℚ := 7200 / 254

/-- Width of an A4 page in points (`A4[0]` = 21 cm). -/
def A4w : ℚ := 21 * cmUnit

/-! ## Rounding semantics -/

/-- Python's builtin `round(x, 2)`: round to 2 decimal places with
round-half-to-even (banker's) tie-breaking, modelled on exact rationals. -/
def pyRound2 (v : ℚ) : ℚ :=
  let x := 100 * v
  let f := ⌊x⌋
  if x - f < 1 / 2 then (f : ℚ) / 100
  else if 1 / 2 < x - f then ((f + 1 : ℤ) : ℚ) / 100
  else if f % 2 = 0 then (f : ℚ) / 100 else ((f + 1 : ℤ) : ℚ) / 100

/-- `Decimal(v).quantize(Decimal('0.01'), rounding=ROUND_HALF_UP)` expressed
in integer cents: ties are rounded away from zero (Python's `ROUND_HALF_UP`). -/
def cents (v : ℚ) : ℤ :=
  if 0 ≤ v then ⌊100 * v + 1 / 2⌋ else -⌊100 * (-v) + 1 / 2⌋

/-- The numeric payload of `money`'s output: `v` rounded half-up to 2 decimals. -/
def roundHalfUp2 (v : ℚ) : ℚ := (cents v : ℚ) / 100

/-- Render an integer number of cents as the `D.DD` string `Decimal.__str__`
produces after quantizing to two decimal places. -/
def fmtCents (k : ℤ) : String :=
  let a := k.natAbs
  (if k < 0 then "-" else "") ++ toString (a / 100) ++ "." ++
    (if a % 100 < 10 then "0" else "") ++ toString (a % 100)

/-- `money` (source lines 45-47): format a value as `€ D.DD`. -/
def money (v : ℚ) : String := "€ " ++ fmtCents (cents v)

/-! ## FinancialCalculator: `monthly_payment` (source lines 50-57)

`none` models an uncaught `ZeroDivisionError`: Python raises it when the
zero-rate branch divides by `months = 0`, when `(1+r) ** months` takes a
negative power of zero, or when the annuity denominator is zero. -/

def monthly_payment (amount : ℚ) (months : ℤ) (annual_rate : ℚ) : Option ℚ :=
  let r := annual_rate / 100 / 12
  if r = 0 then
    if months = 0 then none else some (pyRound2 (amount / (months : ℚ)))
  else if 1 + r = 0 ∧ months < 0 then none
  else
    let den := (1 + r) ^ months - 1
    if den = 0 then none
    else some (pyRound2 (amount * r * (1 + r) ^ months / den))

/-! ## Python numeric parsing

`float(s)` and `int(s)` model the builtins on their common input grammar:
surrounding whitespace, an optional sign, then digits (with an optional
single decimal point for `float`). -/

/-- The whitespace characters Python's `str.strip()` (and the numeric
constructors) remove. -/
def isSpaceChar (c : Char) : Bool :=
  c = ' ' ∨ c = '\t' ∨ c = '\n' ∨ c = '\x0b' ∨ c = '\x0c' ∨ c = '\r'

def trimChars (l : List Char) : List Char :=
  ((l.dropWhile isSpaceChar).reverse.dropWhile isSpaceChar).reverse

/-- `text.strip()`. -/
def pyStrip (s : String) : String := ⟨trimChars s.data⟩

/-- `text.replace('€','')`. -/
def dropEuro (s : String) : String := ⟨s.data.filter (fun c => c ≠ '€')⟩

/-- `text.replace(',','.')`. -/
def commaToDot (s : String) : String := ⟨s.data.map (fun c => if c = ',' then '.' else c)⟩

/-- Whether the message text is a bot command (`filters.COMMAND`). -/
def isCommandMsg (s : String) : Bool :=
  match s.data with
  | '/' :: _ => true
  | _ => false

def natFromDigits (l : List Char) : ℕ :=
  l.foldl (fun a c => 10 * a + (c.toNat - 48)) 0

def signSplit (l : List Char) : ℤ × List Char :=
  match l with
  | '+' :: r => (1, r)
  | '-' :: r => (-1, r)
  | r => (1, r)

/-- `float(s)`: `none` models a `ValueError`. -/
def pyFloat? (s : String) : Option ℚ :=
  let p := signSplit (trimChars s.data)
  let rest := p.2
  match rest.span (fun c => c ≠ '.') with
  | (ip, []) =>
      if ip ≠ [] ∧ ip.all Char.isDigit then some ((p.1 : ℚ) * natFromDigits ip)
      else none
  | (ip, _ :: fp) =>
      if (ip ≠ [] ∨ fp ≠ []) ∧ ip.all Char.isDigit ∧ fp.all Char.isDigit then
        some ((p.1 : ℚ) * ((natFromDigits ip : ℚ) + (natFromDigits fp : ℚ) / 10 ^ fp.length))
      else none

/-- `int(s)`: `none` models a `ValueError`.  Note that `int` accepts any
sign, so `"0"` and `"-5"` parse successfully. -/
def pyInt? (s : String) : Option ℤ :=
  let p := signSplit (trimChars s.data)
  if p.2 ≠ [] ∧ p.2.all Char.isDigit then some (p.1 * natFromDigits p.2)
  else none

/-! ## SignatureLine geometry

Both `SignatureLine.draw` contracts place the label at the baseline and
(possibly) draw a signature image of size `sign_width × sign_height`.
The functions below compute the image's lower-left corner `(imgX, imgY)`
exactly as the corresponding `draw` bodies do. -/

structure SigGeom where
  imgX : ℚ
  imgY : ℚ
deriving DecidableEq

/-- `build_contratto.SignatureLine.draw` (source lines 209-230): the rule
runs from `text_width + 6` to `width` and the image is placed at
`line_x0 + (line_len - sign_width)/2`, straddling the baseline. -/
def contrattoSigImage (text_width width sign_width sign_height : ℚ) : SigGeom :=
  let line_x0 := text_width + 6
  let line_x1 := width
  let line_len := line_x1 - line_x0
  ⟨line_x0 + (line_len - sign_width) / 2, -(sign_height / 2)⟩

/-- `build_lettera_garanzia.SignatureLine.draw` (source lines 440-453) and
the identical `build_lettera_carta` variant (lines 570-583): no rule is
drawn and the image is placed at `width - sign_width`. -/
def letteraSigImage (_text_width width sign_width sign_height : ℚ) : SigGeom :=
  ⟨width - sign_width, -(sign_height / 2)⟩

/-- Width passed to every `SignatureLine`: `A4[0] - 2*cm*2`. -/
def sigLineWidth : ℚ := A4w - 2 * cmUnit * 2

/-! ## Conversation state machine (source lines 603-712)

`step` models how the `ConversationHandler` dispatches one inbound text
message: fallbacks `/start` and `/cancel` fire in every conversation state
(the per-state handlers either match only the three document commands or
filter out commands); `ended` models `ConversationHandler.END`, where only
the `/start` entry point is handled.  An uncaught Python exception in a
handler leaves state and stored data unchanged (event `exnE`). -/

structure Session where
  docType : Option String := none
  name : Option String := none
  amount : Option ℚ := none
  duration : Option ℤ := none
  tan : Option ℚ := none
  taeg : Option ℚ := none
  payment : Option ℚ := none
deriving DecidableEq

def emptySession : Session := {}

inductive BotState
  | choosingDoc | askName | askAmount | askDuration | askTan | askTaeg | ended
deriving DecidableEq

/-- A document build call with the data it receives. -/
inductive Doc
  | garanziaDoc (name : String)
  | contrattoDoc (d : Session)
  | cartaDoc (d : Session)
deriving DecidableEq

inductive Event
  | menuP | nameP | amountP | durationP | tanP | taegP
  | invalidE
  | exnE
  | errNoticeE
  | cancelledE
  | builtE (doc : Doc)
  | sentE
deriving DecidableEq

/-- One dispatch of an inbound message.  `bOk` tells whether a PDF build
succeeds, `sOk` whether `reply_document` delivery succeeds. -/
def step (bOk sOk : Bool) (st : BotState) (s : Session) (input : String) :
    BotState × Session × List Event :=
  if input = "/start" then (.choosingDoc, emptySession, [.menuP])
  else if input = "/cancel" then
    if st = .ended then (.ended, s, [])
    else (.choosingDoc, emptySession, [.cancelledE, .menuP])
  else
    match st with
    | .choosingDoc =>
        if input = "/contratto" ∨ input = "/garanzia" ∨ input = "/carta" then
          (.askName, { s with docType := some input }, [.nameP])
        else (.choosingDoc, s, [])
    | .askName =>
        if isCommandMsg input then (.askName, s, [])
        else
          match s.docType with
          | none => (.askName, s, [.exnE])
          | some dt =>
            if dt = "/garanzia" then
              if bOk then
                if sOk then
                  (.choosingDoc, emptySession,
                    [.builtE (.garanziaDoc (pyStrip input)), .sentE, .menuP])
                else (.ended, s, [.builtE (.garanziaDoc (pyStrip input)), .errNoticeE])
              else (.ended, s, [.errNoticeE])
            else (.askAmount, { s with name := some (pyStrip input) }, [.amountP])
    | .askAmount =>
        if isCommandMsg input then (.askAmount, s, [])
        else
          match pyFloat? (commaToDot (dropEuro input)) with
          | some v => (.askDuration, { s with amount := some (pyRound2 v) }, [.durationP])
          | none => (.askAmount, s, [.invalidE])
    | .askDuration =>
        if isCommandMsg input then (.askDuration, s, [])
        else
          match pyInt? input with
          | some n => (.askTan, { s with duration := some n }, [.tanP])
          | none => (.askDuration, s, [.invalidE])
    | .askTan =>
        if isCommandMsg input then (.askTan, s, [])
        else if pyStrip input = "" then
          (.askTaeg, { s with tan := some DEFAULT_TAN }, [.taegP])
        else
          match pyFloat? (commaToDot (pyStrip input)) with
          | some v => (.askTaeg, { s with tan := some v }, [.taegP])
          | none => (.askTan, s, [.exnE])
    | .askTaeg =>
        if isCommandMsg input then (.askTaeg, s, [])
        else
          match (if pyStrip input = "" then some DEFAULT_TAEG
                 else pyFloat? (commaToDot (pyStrip input))) with
          | none => (.askTaeg, s, [.exnE])
          | some v =>
            match s.amount, s.duration, s.tan with
            | some a, some d, some t =>
              match monthly_payment a d t with
              | none => (.askTaeg, { s with taeg := some v }, [.exnE])
              | some pay =>
                match s.docType with
                | none => (.askTaeg, { s with taeg := some v, payment := some pay }, [.exnE])
                | some dt =>
                  if bOk then
                    if sOk then
                      (.choosingDoc, emptySession,
                        [.builtE (if dt = "/contratto" then
                            Doc.contrattoDoc { s with taeg := some v, payment := some pay }
                          else Doc.cartaDoc { s with taeg := some v, payment := some pay }),
                         .sentE, .menuP])
                    else
                      (.ended, { s with taeg := some v, payment := some pay },
                        [.builtE (if dt = "/contratto" then
                            Doc.contrattoDoc { s with taeg := some v, payment := some pay }
                          else Doc.cartaDoc { s with taeg := some v, payment := some pay }),
                         .errNoticeE])
                  else (.ended, { s with taeg := some v, payment := some pay }, [.errNoticeE])
            | _, _, _ => (.askTaeg, { s with taeg := some v }, [.exnE])
    | .ended => (.ended, s, [])

/-- Run the machine over a list of inbound messages, collecting events. -/
def run (bOk sOk : Bool) : BotState → Session → List String → BotState × Session × List Event
  | st, s, [] => (st, s, [])
  | st, s, inp :: rest =>
      let r := step bOk sOk st s inp
      let r2 := run bOk sOk r.1 r.2.1 rest
      (r2.1, r2.2.1, r.2.2 ++ r2.2.2)

/-- The payment recorded in the data passed to the first build call, if any. -/
def builtPayment : List Event → Option ℚ
  | [] => none
  | .builtE (.contrattoDoc d) :: _ => d.payment
  | .builtE (.cartaDoc d) :: _ => d.payment
  | .builtE (.garanziaDoc _) :: _ => none
  | _ :: rest => builtPayment rest

/-- `true` exactly on build-call events. -/
def isBuildEvent : Event → Bool
  | .builtE _ => true
  | _ => false

/-! ## Helper lemmas -/

theorem cents_roundHalfUp2 (v : ℚ) : cents (roundHalfUp2 v) = cents v := by
  unfold roundHalfUp2
  set k := cents v with hk
  clear_value k
  unfold cents
  have e100 : (100 : ℚ) * ((k : ℚ) / 100) = (k : ℚ) := by ring
  have ehalf : ⌊(1 / 2 : ℚ)⌋ = 0 := by with_unfolding_all decide
  by_cases h : (0 : ℚ) ≤ (k : ℚ) / 100
  · rw [if_pos h, e100, Int.floor_int_add k ((1:ℚ)/2)]
    · norm_num
  · rw [if_neg h]
    have : (100 : ℚ) * -((k : ℚ) / 100) = ((-k : ℤ) : ℚ) := by push_cast; ring
    rw [this, Int.floor_int_add (-k) ((1:ℚ)/2)]
    · norm_num

/-! ## C1 -/

/-- C1 (counterexample): at principal 9/8 = 1.125, one month, zero rate, the
code returns round-half-even 1.12, while round-half-up of 1.125 is 1.13. -/
theorem monthly_payment_half_up_refuted :
    monthly_payment (9/8) 1 0 = some (28/25) ∧
    roundHalfUp2 ((9/8 : ℚ) / ((1 : ℤ) : ℚ)) = 113/100 ∧
    (28/25 : ℚ) ≠ 113/100 := by
  refine ⟨?_, ?_, ?_⟩ <;> with_unfolding_all decide

/-- C1 (amended): for principal ≥ 0, months > 0 and rate ≥ 0,
`monthly_payment` returns principal/months when the monthly rate is zero and
the annuity formula otherwise, rounded to 2 decimal places with Python's
`round` — round-half-to-even (banker's) semantics, not round-half-up. -/
theorem monthly_payment_formula_half_even (p : ℚ) (m : ℤ) (rate : ℚ)
    (_hp : 0 ≤ p) (hm : 0 < m) (hr : 0 ≤ rate) :
    monthly_payment p m rate =
      some (pyRound2 (if rate / 100 / 12 = 0 then p / (m : ℚ)
        else p * (rate / 100 / 12) * (1 + rate / 100 / 12) ^ m /
          ((1 + rate / 100 / 12) ^ m - 1))) := by
  unfold monthly_payment
  by_cases h0 : rate / 100 / 12 = 0
  · simp [h0, hm.ne']
  · have hrnn : 0 ≤ rate / 100 / 12 := by positivity
    have hrpos : 0 < rate / 100 / 12 := lt_of_le_of_ne hrnn (Ne.symm h0)
    have h1 : (1 : ℚ) < 1 + rate / 100 / 12 := by linarith
    have hpow : (1 : ℚ) < (1 + rate / 100 / 12) ^ m :=
      one_lt_zpow₀ h1 hm
    have hden : (1 + rate / 100 / 12) ^ m - 1 ≠ 0 := by linarith
    have hnot : ¬(1 + rate / 100 / 12 = 0 ∧ m < 0) := by
      rintro ⟨he, _⟩; linarith
    simp [h0, hnot, hden]

/-- C1 (witness): the amended statement at principal 1200, 12 months, rate 0. -/
theorem monthly_payment_formula_half_even_witness :
    monthly_payment 1200 12 0 =
      some (pyRound2 (if (0 : ℚ) / 100 / 12 = 0 then (1200 : ℚ) / ((12 : ℤ) : ℚ)
        else 1200 * ((0 : ℚ) / 100 / 12) * (1 + (0 : ℚ) / 100 / 12) ^ (12 : ℤ) /
          ((1 + (0 : ℚ) / 100 / 12) ^ (12 : ℤ) - 1))) :=
  monthly_payment_formula_half_even 1200 12 0 (by norm_num) (by norm_num) le_rfl

/-! ## C3 -/

/-- C3 (code bug): in `AskDuration` the input `"0"` parses through `int()`,
is stored as the duration and the machine advances to `AskRate(TAN)` instead
of re-prompting; `monthly_payment` at 0 months then raises
`ZeroDivisionError` (modelled by `none`) for every amount and rate. -/
theorem duration_nonpositive_accepted (b k : Bool) (s : Session) (a rate : ℚ) :
    step b k .askDuration s "0" = (.askTan, { s with duration := some 0 }, [.tanP]) ∧
    monthly_payment a 0 rate = none := by
  constructor
  · have e : pyInt? "0" = some 0 := by with_unfolding_all decide
    unfold step
    rw [if_neg (by decide : ¬("0" = "/start")), if_neg (by decide : ¬("0" = "/cancel"))]
    simp [e, (by decide : isCommandMsg "0" = false)]
  · by_cases hr : rate / 100 / 12 = 0 <;>
      simp [monthly_payment, hr]

/-! ## C4 -/

/-- C4 (counterexample): the input `"-5"` parses as a float, so `-5` — a
value < 0 — is stored as the principal amount. -/
theorem amount_negative_stored :
    step true true .askAmount emptySession "-5" =
      (.askDuration, { emptySession with amount := some (-5) }, [.durationP]) ∧
    ((-5 : ℚ) < 0) :=
  ⟨by with_unfolding_all decide, by norm_num⟩

/-- C4 (amended): the `AskAmount` handler stores `round(v, 2)` for every
input whose text parses as a float after dropping `€` and mapping comma to
dot — including negative values — and re-prompts in the same state with the
session unchanged when parsing fails. -/
theorem ask_amount_parse_spec (b k : Bool) (s : Session) (input : String)
    (hc : isCommandMsg input = false) :
    (∀ v, pyFloat? (commaToDot (dropEuro input)) = some v →
      step b k .askAmount s input =
        (.askDuration, { s with amount := some (pyRound2 v) }, [.durationP])) ∧
    (pyFloat? (commaToDot (dropEuro input)) = none →
      step b k .askAmount s input = (.askAmount, s, [.invalidE])) := by
  have h1 : input ≠ "/start" := by rintro rfl; revert hc; decide
  have h2 : input ≠ "/cancel" := by rintro rfl; revert hc; decide
  constructor
  · intro v hv
    unfold step
    rw [if_neg h1, if_neg h2]
    simp [hc, hv]
  · intro hv
    unfold step
    rw [if_neg h1, if_neg h2]
    simp [hc, hv]

/-- C4 (witness): the amended statement at input `"€12,5"`, which stores
12.5 and advances to `AskDuration`. -/
theorem ask_amount_parse_spec_witness :
    step true true .askAmount emptySession "€12,5" =
      (.askDuration, { emptySession with amount := some (pyRound2 (25/2)) }, [.durationP]) :=
  (ask_amount_parse_spec true true emptySession "€12,5" (by decide)).1 (25/2)
    (by with_unfolding_all decide)

/-! ## C5 -/

/-- C5 (counterexample): in the guarantee/card letters' `SignatureLine`,
with the concrete geometry the source passes (`width = A4[0] - 4cm`,
`sign_width = 4cm`, `sign_height = 2cm`) and a label 250 pt wide, the image
midpoint does not coincide with the midpoint of `[textWidth + 6, width]`:
the image is right-aligned, not centered. -/
theorem lettera_sig_not_centered :
    (letteraSigImage 250 sigLineWidth (4 * cmUnit) (2 * cmUnit)).imgX + (4 * cmUnit) / 2 ≠
      ((250 + 6) + sigLineWidth) / 2 := by
  with_unfolding_all decide

/-- C5 (amended): only the contract's `SignatureLine` centers the signature
image within the rule segment `[textWidth + 6, width]`; the two letter
variants place it right-aligned at `width - sign_width`.  In all variants
the image straddles the baseline at `y = -height/2`. -/
theorem sig_image_placement (tw w sw sh : ℚ) :
    (contrattoSigImage tw w sw sh).imgX + sw / 2 = ((tw + 6) + w) / 2 ∧
    (letteraSigImage tw w sw sh).imgX = w - sw ∧
    (contrattoSigImage tw w sw sh).imgY = -(sh / 2) ∧
    (letteraSigImage tw w sw sh).imgY = -(sh / 2) := by
  refine ⟨?_, rfl, rfl, rfl⟩
  unfold contrattoSigImage
  ring

/-! ## C9 -/

/-- C9: `money` is idempotent — re-parsing the numeric payload of
`money v` (which is `v` rounded half-up to 2 decimals) and formatting it
again yields the same string. -/
theorem money_idem (v : ℚ) :
    money (roundHalfUp2 v) = money v ∧
    roundHalfUp2 (roundHalfUp2 v) = roundHalfUp2 v := by
  constructor
  · unfold money
    rw [cents_roundHalfUp2]
  · unfold roundHalfUp2
    rw [show cents ((cents v : ℚ) / 100) = cents v from cents_roundHalfUp2 v]

/-! ## C2 -/

/-- C2 (counterexample): a build failure in the guarantee-letter flow ends
the conversation with the session still holding the document kind collected
during the failed flow — the error path does not leave the session empty. -/
theorem error_path_leaves_data :
    (run false true .choosingDoc emptySession ["/garanzia", "Mario"]).2.1 ≠ emptySession ∧
    Event.errNoticeE ∈ (run false true .choosingDoc emptySession ["/garanzia", "Mario"]).2.2 :=
  ⟨by with_unfolding_all decide, by with_unfolding_all decide⟩

set_option maxHeartbeats 2000000 in
/-- C2 (amended): every build/delivery error path ends the conversation
(`ConversationHandler.END`) without clearing the collected fields; from the
ended state every input is ignored except the restart command, which resets
the session to empty — so the next flow, which can only begin with
`/start`, observes no leftover data even though the error path itself
leaves the session non-empty. -/
theorem error_path_ends_session (b k : Bool) (st : BotState) (s s₂ : Session)
    (inp inp₂ : String)
    (herr : Event.errNoticeE ∈ (step b k st s inp).2.2) :
    (step b k st s inp).1 = .ended ∧
    step b k .ended s₂ inp₂ =
      (if inp₂ = "/start" then (.choosingDoc, emptySession, [.menuP])
       else (.ended, s₂, [])) := by
  constructor
  · revert herr
    cases st <;> unfold step <;> intro herr <;> (repeat' split at herr) <;> simp_all
  · unfold step
    by_cases h1 : inp₂ = "/start"
    · simp [h1]
    · by_cases h2 : inp₂ = "/cancel" <;> simp [h1, h2]

/-- C2 (witness): the amended statement at the concrete failing garanzia
build, followed by a `/garanzia` message sent after the conversation ended. -/
theorem error_path_ends_session_witness :
    (step false true .askName { emptySession with docType := some "/garanzia" } "Mario").1
      = .ended ∧
    step false true .ended emptySession "/garanzia" =
      (if "/garanzia" = "/start" then (.choosingDoc, emptySession, [.menuP])
       else (.ended, emptySession, [])) :=
  error_path_ends_session false true .askName
    { emptySession with docType := some "/garanzia" } emptySession "Mario" "/garanzia"
    (by with_unfolding_all decide)

/-! ## C6 -/

/-- C6: from every conversation state, `/cancel` (and likewise the restart
command `/start`) returns to `ChoosingDocument` with the session cleared to
empty. -/
theorem cancel_restart_resets (b k : Bool) (st : BotState) (s : Session)
    (h : st ≠ .ended) :
    step b k st s "/cancel" = (.choosingDoc, emptySession, [.cancelledE, .menuP]) ∧
    step b k st s "/start" = (.choosingDoc, emptySession, [.menuP]) := by
  constructor
  · unfold step
    rw [if_neg (by decide : ¬("/cancel" = "/start")), if_pos rfl, if_neg h]
  · unfold step
    rw [if_pos rfl]

/-- C6 (witness): `/cancel` and `/start` from `AskAmount` with a non-empty
session. -/
theorem cancel_restart_resets_witness :
    step true true .askAmount { emptySession with name := some "Mario" } "/cancel" =
      (.choosingDoc, emptySession, [.cancelledE, .menuP]) ∧
    step true true .askAmount { emptySession with name := some "Mario" } "/start" =
      (.choosingDoc, emptySession, [.menuP]) :=
  cancel_restart_resets true true .askAmount { emptySession with name := some "Mario" }
    (by decide)

/-! ## C7 -/

/-- C7: from `ChoosingDocument`, `/garanzia` followed by one (non-command)
name message produces exactly one build call — with no amount, duration or
rate prompts — and returns to `ChoosingDocument` with an empty session. -/
theorem garanzia_single_build (name : String) (h : isCommandMsg name = false) :
    run true true .choosingDoc emptySession ["/garanzia", name] =
      (.choosingDoc, emptySession,
        [.nameP, .builtE (.garanziaDoc (pyStrip name)), .sentE, .menuP]) ∧
    (([Event.nameP, .builtE (.garanziaDoc (pyStrip name)), .sentE,
        .menuP].filter isBuildEvent).length = 1) ∧
    Event.amountP ∉ [Event.nameP, .builtE (.garanziaDoc (pyStrip name)), .sentE, .menuP] ∧
    Event.durationP ∉ [Event.nameP, .builtE (.garanziaDoc (pyStrip name)), .sentE, .menuP] ∧
    Event.tanP ∉ [Event.nameP, .builtE (.garanziaDoc (pyStrip name)), .sentE, .menuP] ∧
    Event.taegP ∉ [Event.nameP, .builtE (.garanziaDoc (pyStrip name)), .sentE, .menuP] := by
  have h1 : name ≠ "/start" := by rintro rfl; revert h; decide
  have h2 : name ≠ "/cancel" := by rintro rfl; revert h; decide
  have e1 : step true true .choosingDoc emptySession "/garanzia" =
      (.askName, { emptySession with docType := some "/garanzia" }, [.nameP]) := by
    with_unfolding_all decide
  refine ⟨?_, by simp [isBuildEvent], by simp, by simp, by simp, by simp⟩
  simp only [run, e1]
  unfold step
  rw [if_neg h1, if_neg h2]
  simp [h]

/-- C7 (witness): the garanzia flow at the concrete name `"Mario Rossi"`. -/
theorem garanzia_single_build_witness :
    run true true .choosingDoc emptySession ["/garanzia", "Mario Rossi"] =
      (.choosingDoc, emptySession,
        [.nameP, .builtE (.garanziaDoc (pyStrip "Mario Rossi")), .sentE, .menuP]) ∧
    (([Event.nameP, .builtE (.garanziaDoc (pyStrip "Mario Rossi")), .sentE,
        .menuP].filter isBuildEvent).length = 1) ∧
    Event.amountP ∉
      [Event.nameP, .builtE (.garanziaDoc (pyStrip "Mario Rossi")), .sentE, .menuP] ∧
    Event.durationP ∉
      [Event.nameP, .builtE (.garanziaDoc (pyStrip "Mario Rossi")), .sentE, .menuP] ∧
    Event.tanP ∉
      [Event.nameP, .builtE (.garanziaDoc (pyStrip "Mario Rossi")), .sentE, .menuP] ∧
    Event.taegP ∉
      [Event.nameP, .builtE (.garanziaDoc (pyStrip "Mario Rossi")), .sentE, .menuP] :=
  garanzia_single_build "Mario Rossi" (by decide)

/-! ## C8 -/

/-- C8: the payment passed to the document build does not depend on the
TAEG: two sessions agreeing on amount, duration and TAN — with any document
kinds (contract or card letter, possibly different), any stored TAEG and
any parseable TAEG input — yield builds carrying the same payment, namely
`monthly_payment amount duration tan`. -/
theorem payment_ignores_taeg (s₁ s₂ : Session) (t₁ t₂ dt₁ dt₂ : String)
    (a : ℚ) (d : ℤ) (tn pay : ℚ)
    (ha₁ : s₁.amount = some a) (ha₂ : s₂.amount = some a)
    (hd₁ : s₁.duration = some d) (hd₂ : s₂.duration = some d)
    (ht₁ : s₁.tan = some tn) (ht₂ : s₂.tan = some tn)
    (hk₁ : s₁.docType = some dt₁) (hk₂ : s₂.docType = some dt₂)
    (hpay : monthly_payment a d tn = some pay)
    (hc₁ : isCommandMsg t₁ = false) (hc₂ : isCommandMsg t₂ = false)
    (hv₁ : pyStrip t₁ = "" ∨ ∃ v, pyFloat? (commaToDot (pyStrip t₁)) = some v)
    (hv₂ : pyStrip t₂ = "" ∨ ∃ v, pyFloat? (commaToDot (pyStrip t₂)) = some v) :
    builtPayment (step true true .askTaeg s₁ t₁).2.2 = some pay ∧
    builtPayment (step true true .askTaeg s₂ t₂).2.2 = some pay := by
  have key : ∀ (s : Session) (t dt : String), s.amount = some a → s.duration = some d →
      s.tan = some tn → s.docType = some dt →
      isCommandMsg t = false →
      (pyStrip t = "" ∨ ∃ v, pyFloat? (commaToDot (pyStrip t)) = some v) →
      builtPayment (step true true .askTaeg s t).2.2 = some pay := by
    intro s t dt ha hd ht hk hc hv
    have h1 : t ≠ "/start" := by rintro rfl; revert hc; decide
    have h2 : t ≠ "/cancel" := by rintro rfl; revert hc; decide
    unfold step
    rw [if_neg h1, if_neg h2]
    by_cases hdt : dt = "/contratto"
    · by_cases he : pyStrip t = ""
      · simp [hc, he, ha, hd, ht, hk, hdt, hpay, builtPayment]
      · obtain he' | ⟨v, hv⟩ := hv
        · exact absurd he' he
        · simp [hc, he, hv, ha, hd, ht, hk, hdt, hpay, builtPayment]
    · by_cases he : pyStrip t = ""
      · simp [hc, he, ha, hd, ht, hk, hdt, hpay, builtPayment]
      · obtain he' | ⟨v, hv⟩ := hv
        · exact absurd he' he
        · simp [hc, he, hv, ha, hd, ht, hk, hdt, hpay, builtPayment]
  exact ⟨key s₁ t₁ dt₁ ha₁ hd₁ ht₁ hk₁ hc₁ hv₁, key s₂ t₂ dt₂ ha₂ hd₂ ht₂ hk₂ hc₂ hv₂⟩

/-- C8 (witness): a contract session and a card-letter session that agree on
amount, duration and TAN but differ in the stored TAEG, receiving TAEG
inputs `"8,3"` and the blank default, both build with payment 100. -/
theorem payment_ignores_taeg_witness :
    builtPayment (step true true .askTaeg
      { docType := some "/contratto", name := some "A", amount := some 1200,
        duration := some 12, tan := some 0, taeg := some 1, payment := none } "8,3").2.2
      = some 100 ∧
    builtPayment (step true true .askTaeg
      { docType := some "/carta", name := some "A", amount := some 1200,
        duration := some 12, tan := some 0, taeg := some 99, payment := none } "").2.2
      = some 100 :=
  payment_ignores_taeg
    { docType := some "/contratto", name := some "A", amount := some 1200,
      duration := some 12, tan := some 0, taeg := some 1, payment := none }
    { docType := some "/carta", name := some "A", amount := some 1200,
      duration := some 12, tan := some 0, taeg := some 99, payment := none }
    "8,3" "" "/contratto" "/carta" 1200 12 0 100 rfl rfl rfl rfl rfl rfl rfl rfl
    (by with_unfolding_all decide) (by decide) (by decide)
    (Or.inr ⟨83/10, by with_unfolding_all decide⟩)
    (Or.inl (by decide))

/-! ## C10 -/

/-- C10: in `AskRate(TAN)` and `AskRate(TAEG)`, a non-empty input that does
not parse as a decimal raises an uncaught exception — state and session
unchanged, nothing stored, no re-prompt — whereas `AskAmount` and
`AskDuration` never raise on text input (they have a recovery branch). -/
theorem rate_parse_exception (b k : Bool) (s : Session) (txt : String)
    (hc : isCommandMsg txt = false) (hne : pyStrip txt ≠ "")
    (hp : pyFloat? (commaToDot (pyStrip txt)) = none) :
    step b k .askTan s txt = (.askTan, s, [.exnE]) ∧
    step b k .askTaeg s txt = (.askTaeg, s, [.exnE]) ∧
    (step b k .askAmount s txt).2.2 ≠ [.exnE] ∧
    (step b k .askDuration s txt).2.2 ≠ [.exnE] := by
  have h1 : txt ≠ "/start" := by rintro rfl; revert hc; decide
  have h2 : txt ≠ "/cancel" := by rintro rfl; revert hc; decide
  refine ⟨?_, ?_, ?_, ?_⟩
  · unfold step
    rw [if_neg h1, if_neg h2]
    simp [hc, hne, hp]
  · unfold step
    rw [if_neg h1, if_neg h2]
    simp [hc, hne, hp]
  · unfold step
    rw [if_neg h1, if_neg h2]
    cases hm : pyFloat? (commaToDot (dropEuro txt)) <;> simp [hc, hm]
  · unfold step
    rw [if_neg h1, if_neg h2]
    cases hm : pyInt? txt <;> simp [hc, hm]

/-- C10 (witness): the statement at the unparseable input `"abc"`. -/
theorem rate_parse_exception_witness :
    step true true .askTan emptySession "abc" = (.askTan, emptySession, [.exnE]) ∧
    step true true .askTaeg emptySession "abc" = (.askTaeg, emptySession, [.exnE]) ∧
    (step true true .askAmount emptySession "abc").2.2 ≠ [.exnE] ∧
    (step true true .askDuration emptySession "abc").2.2 ≠ [.exnE] :=
  rate_parse_exception true true emptySession "abc" (by decide) (by decide)
    (by with_unfolding_all decide)

end CaixaBot
